import Mathlib

/-!
Verification of the HomeNetworkMonitor fleet-monitoring agent (src/a.py)
against its natural-language specification.

The Python program is shallowly embedded: all I/O (filesystem, subprocess,
SSH, netmiko, wall clock, console, log file) is modelled by explicit oracle
parameters ("worlds"), and the observable effects of a run (console prints,
durable log appends, accumulation into the result list) are modelled as an
explicit event trace.  Python exceptions are modelled with `Except`, carrying
the exception message as a `String`; a strategy that records a fail-status
result and then re-raises is modelled as returning
`Except (String × Stats) Stats`, the error carrying both the propagated
exception message and the result record that was written just before the
raise.  Wall-clock instants for the `TaskTimer` are modelled in hundredths
of a second (`Nat`), so that the two-decimal elapsed-seconds formatting of
Python is exact.
-/

/-- A parsed YAML document, as produced by `yaml.safe_load`:
`null`, booleans, integers, strings, sequences, and string-keyed mappings. -/
inductive Yaml where
  | null : Yaml
  | bool : Bool → Yaml
  | int : Int → Yaml
  | str : String → Yaml
  | list : List Yaml → Yaml
  | map : List (String × Yaml) → Yaml

/-- Mapping lookup on a parsed YAML mapping (Python `dict.get` with the
default handled by the caller): first entry with the given key. -/
def yamlLookup (kvs : List (String × Yaml)) (k : String) : Option Yaml :=
  (kvs.find? (fun kv => kv.1 = k)).map (fun kv => kv.2)

/-- A result record (`stats` in the source): a Python dict from string keys
to string values, in insertion order. -/
abbrev Stats := List (String × String)

/-- Python dict assignment `d[k] = v`: replace in place when the key is
present, append at the end when it is new. -/
def statsInsert (st : Stats) (k v : String) : Stats :=
  if st.any (fun kv => kv.1 = k) then
    st.map (fun kv => if kv.1 = k then (k, v) else kv)
  else
    st ++ [(k, v)]

/-- Python dict read `d.get(k)`: value of the first entry with key `k`. -/
def statsGet (st : Stats) (k : String) : Option String :=
  (st.find? (fun kv => kv.1 = k)).map (fun kv => kv.2)

/-- A naive UTC datetime as returned by `datetime.utcnow()`. -/
structure DateTime where
  year : Nat
  month : Nat
  day : Nat
  hour : Nat
  minute : Nat
  second : Nat
  microsecond : Nat

/-- Zero-padding to two digits, as in the datetime string formatting. -/
def pad2 (n : Nat) : String :=
  if n < 10 then "0" ++ toString n else toString n

/-- Zero-padding to four digits (year field). -/
def pad4 (n : Nat) : String :=
  if n < 10 then "000" ++ toString n
  else if n < 100 then "00" ++ toString n
  else if n < 1000 then "0" ++ toString n
  else toString n

/-- Zero-padding to six digits (microsecond field). -/
def pad6 (n : Nat) : String :=
  if n < 10 then "00000" ++ toString n
  else if n < 100 then "0000" ++ toString n
  else if n < 1000 then "000" ++ toString n
  else if n < 10000 then "00" ++ toString n
  else if n < 100000 then "0" ++ toString n
  else toString n

/-- Python `datetime.isoformat()` on a naive datetime: `YYYY-MM-DDTHH:MM:SS`,
followed by `.ffffff` exactly when the microsecond component is nonzero
(CPython omits the fractional part when `microsecond == 0`). -/
def DateTime.isoformat (d : DateTime) : String :=
  pad4 d.year ++ "-" ++ pad2 d.month ++ "-" ++ pad2 d.day ++ "T" ++
    pad2 d.hour ++ ":" ++ pad2 d.minute ++ ":" ++ pad2 d.second ++
    (if d.microsecond = 0 then "" else "." ++ pad6 d.microsecond)

/-- The six-entry command catalog `COMMANDS` of the source, in source order. -/
def COMMANDS : List (String × String) :=
  [("hostname", "hostname"),
   ("uptime", "uptime -p"),
   ("cpu_usage", "top -bn1 | grep \x27%Cpu\x27 | awk \x27\x7bprint $2 + $4\x7d\x27"),
   ("memory", "free -m | awk \x27/Mem:/ \x7bprint $2, $3\x7d\x27"),
   ("disk", "df -h / | awk \x27NR==2 \x7bprint $2, $3, $5\x7d\x27"),
   ("ip_address", "hostname -I | awk \x27\x7bprint $1\x7d\x27")]

/-- The outcome of reading and parsing the nodes file, the external
collaborator of `LOAD_NODES`: `none` when `os.path.exists` is false,
`some (.error e)` when opening or `yaml.safe_load` raises (message `e`),
`some (.ok data)` when parsing succeeds with document `data`. -/
abbrev NodesFile := Option (Except String Yaml)

/-- The body line `data.get("nodes", [])`: only a mapping has a `.get`
attribute; on any other document (including `None` from an empty file) the
attribute access raises, and the raise is caught by `LOAD_NODES`. -/
def dataGetNodes : Yaml → Except String Yaml
  | Yaml.map kvs => Except.ok ((yamlLookup kvs "nodes").getD (Yaml.list []))
  | _ => Except.error "AttributeError: object has no attribute get"

/-- Function `LOAD_NODES`: missing file yields `[]`; a raising open/parse yields `[]`;
a parsed document yields `data.get("nodes", [])`, with the generic
`except Exception` clause turning any failure of that line into `[]`. -/
def LOAD_NODES (file : NodesFile) : Yaml :=
  match file with
  | none => Yaml.list []
  | some (Except.error _) => Yaml.list []
  | some (Except.ok data) =>
    match dataGetNodes data with
    | Except.ok v => v
    | Except.error _ => Yaml.list []

/-- A node record from the `nodes` list of the configuration file, holding
the six keys the source reads (each absent key reads as Python `None`
through `dict.get`); `COMMANDS` and `CONFIG_COMMANDS` are the ordered
command sequences of the `ssh` and managed-device strategies. -/
structure Node where
  HOST_NAME : Option String := none
  USER_NAME : Option String := none
  PASSWORD : Option String := none
  DEVICE_TYPE : Option String := none
  COMMANDS : Option (List String) := none
  CONFIG_COMMANDS : Option (List String) := none

/-- Python string interpolation of the host-name read of a node. -/
def pyShowOpt : Option String → String
  | none => "None"
  | some s => s

/-- An observable event of a run: a plain console print, a colored console
print (`cprint`), a successful durable append of one record by `save_log`,
or an append of one record to the accumulated `all_stats` list. -/
inductive Ev where
  | print : String → Ev
  | cprint : String → String → Ev
  | sinkWrite : Stats → Ev
  | appended : Stats → Ev

/-- The oracle world of one node dispatch: the local machine name and UTC
clock reading, the `subprocess.check_output` outcome per shell command
(decoded stdout or exception message), the paramiko connect outcome and
per-command `exec_command`/`recv_exit_status` outcome, the four netmiko
steps, the `TaskTimer` clock readings in hundredths of a second, and the
`save_log` outcome (`some e` when opening or writing the log raises `e`). -/
structure NodeWorld where
  gethostname : String
  now : DateTime
  runCmd : String → Except String String
  sshConnect : String → String → String → Except String Unit
  sshExec : String → Except String Nat
  netConnect : Option String → Option String → Option String → Option String → Except String Unit
  netSendConfig : List String → Except String String
  netSave : Except String Unit
  netDisconnect : Except String Unit
  tEnter : Nat
  tExit : Nat
  sinkExn : Option String

/-- Two-decimal seconds formatting of an elapsed time measured in
hundredths of a second. -/
def fmt2f (cs : Nat) : String :=
  toString (cs / 100) ++ "." ++ pad2 (cs % 100)

/-- The `TaskTimer` context manager around a unit of work that either
returns a result or raises: `__enter__` prints the running marker, the body
runs, and `__exit__` prints a green checkmark with elapsed time on normal
exit or a red cross with elapsed time when the body raised; `__exit__`
returns `None`, so a raised exception propagates unchanged afterwards. -/
def withTaskTimer (label : String) (tEnter tExit : Nat)
    (body : Except (String × Stats) Stats) :
    List Ev × Except (String × Stats) Stats :=
  (Ev.print ("[" ++ label ++ "] Running...") ::
    (match body with
     | Except.ok _ => [Ev.cprint "green" (" ✅ " ++ fmt2f (tExit - tEnter) ++ "s")]
     | Except.error _ => [Ev.cprint "red" (" ❌ " ++ fmt2f (tExit - tEnter) ++ "s")]),
   body)

/-- The value stored for one metric key by the loop body of `RUN_LOCAL`: the
trimmed decoded stdout of the command, or `Error: <message>` when
`subprocess.check_output` raised. -/
def localMetric (w : NodeWorld) (cmd : String) : String :=
  match w.runCmd cmd with
  | Except.ok out => out.trim
  | Except.error e => "Error: " ++ e

/-- The `stats` dict built by `RUN_LOCAL`: host and timestamp, then one
entry per catalog command in catalog order, then `status = success`. -/
def localStats (w : NodeWorld) : Stats :=
  statsInsert
    (COMMANDS.foldl (fun st kc => statsInsert st kc.1 (localMetric w kc.2))
      [("host", w.gethostname), ("timestamp", w.now.isoformat ++ "Z")])
    "status" "success"

/-- Strategy `RUN_LOCAL`: under the `TaskTimer` labelled `Localhost`, build the stats
dict and return it; every per-command failure is caught inside the loop, so
the body never raises. -/
def RUN_LOCAL (w : NodeWorld) : List Ev × Except (String × Stats) Stats :=
  withTaskTimer "Localhost" w.tEnter w.tExit (Except.ok (localStats w))

/-- Python subscript `node["K"]` for the three credentials keys of the ssh
strategy: raises `KeyError` when the key is absent. -/
def pyIndex (v : Option String) (k : String) : Except String String :=
  match v with
  | some s => Except.ok s
  | none => Except.error ("KeyError: \x27" ++ k ++ "\x27")

/-- The command loop of the ssh strategy: run each remote command in order,
wait for its exit status (the status value is ignored), and stop at the
first raised exception. -/
def execAllSSH (w : NodeWorld) : List String → Except String Unit
  | [] => Except.ok ()
  | c :: cs =>
    match w.sshExec c with
    | Except.ok _ => execAllSSH w cs
    | Except.error e => Except.error e

/-- The `try` block of `RUN_SSH_COMMANDS`: subscript the three credential
keys, connect, then run every command of `node.get("COMMANDS", [])`. -/
def runSSHTry (w : NodeWorld) (node : Node) : Except String Unit := do
  let h ← pyIndex node.HOST_NAME "HOST_NAME"
  let u ← pyIndex node.USER_NAME "USER_NAME"
  let p ← pyIndex node.PASSWORD "PASSWORD"
  w.sshConnect h u p
  execAllSSH w (node.COMMANDS.getD [])

/-- Strategy `RUN_SSH_COMMANDS`: under the `TaskTimer` labelled by the host name
(default `SSH Node`), build the base stats, run the `try` block; on success
set `status = success` and return the stats, on any exception set
`status = fail: <message>` and re-raise the same exception. -/
def RUN_SSH_COMMANDS (w : NodeWorld) (node : Node) :
    List Ev × Except (String × Stats) Stats :=
  withTaskTimer (node.HOST_NAME.getD "SSH Node") w.tEnter w.tExit
    (let stats : Stats :=
      [("host", node.HOST_NAME.getD "unknown"), ("timestamp", w.now.isoformat ++ "Z")]
     match runSSHTry w node with
     | Except.ok _ => Except.ok (statsInsert stats "status" "success")
     | Except.error e => Except.error (e, statsInsert stats "status" ("fail: " ++ e)))

/-- The `try` block of `RUN_NETMIKO_CONFIG`: `ConnectHandler` on the device
dict, `send_config_set` on `node.get("CONFIG_COMMANDS", [])`, `save_config`,
`disconnect`; any of the four steps may raise. -/
def runNetTry (w : NodeWorld) (node : Node) : Except String Unit := do
  w.netConnect node.DEVICE_TYPE node.HOST_NAME node.USER_NAME node.PASSWORD
  let _out ← w.netSendConfig (node.CONFIG_COMMANDS.getD [])
  w.netSave
  w.netDisconnect

/-- Strategy `RUN_NETMIKO_CONFIG`: under the `TaskTimer` labelled by the host name
(default `Netmiko Node`), build the base stats, run the `try` block; on
success set `status = success` and return the stats, on any exception
(netmiko timeout, authentication failure, or anything else — the except
clause ends in `Exception`) set `status = fail: <message>` and re-raise. -/
def RUN_NETMIKO_CONFIG (w : NodeWorld) (node : Node) :
    List Ev × Except (String × Stats) Stats :=
  withTaskTimer (node.HOST_NAME.getD "Netmiko Node") w.tEnter w.tExit
    (let stats : Stats :=
      [("host", node.HOST_NAME.getD "unknown"), ("timestamp", w.now.isoformat ++ "Z")]
     match runNetTry w node with
     | Except.ok _ => Except.ok (statsInsert stats "status" "success")
     | Except.error e => Except.error (e, statsInsert stats "status" ("fail: " ++ e)))

/-- The strategy-selection if/elif/else of the loop body of `main`:
`DEVICE_TYPE == "local"` picks `RUN_LOCAL`, `DEVICE_TYPE == "ssh"` picks
`RUN_SSH_COMMANDS`, and every other value of `node.get("DEVICE_TYPE")` —
any other string, or a missing key — falls to `RUN_NETMIKO_CONFIG`. -/
def runStrategy (w : NodeWorld) (node : Node) :
    List Ev × Except (String × Stats) Stats :=
  if node.DEVICE_TYPE = some "local" then RUN_LOCAL w
  else if node.DEVICE_TYPE = some "ssh" then RUN_SSH_COMMANDS w node
  else RUN_NETMIKO_CONFIG w node

/-- The except clause of the loop body of `main`: a red `cprint` naming the
host of the node and the exception message. -/
def errNotice (node : Node) (e : String) : Ev :=
  Ev.cprint "red" ("Error processing " ++ pyShowOpt node.HOST_NAME ++ ": " ++ e)

/-- One iteration of the loop of `main`, as its event trace: run the selected
strategy; on a normal return call `save_log` and append to `all_stats`
(where a raising `save_log` is caught by the same per-node `except` and
appends nothing durable); on a raised exception print the error notice. -/
def processNode (w : NodeWorld) (node : Node) : List Ev :=
  let r := runStrategy w node
  match r.2 with
  | Except.ok stat =>
    match w.sinkExn with
    | none => r.1 ++ [Ev.sinkWrite stat, Ev.appended stat]
    | some e => r.1 ++ [errNotice node e]
  | Except.error (e, _) => r.1 ++ [errNotice node e]

/-- The `for node in nodes` loop of `main`, over the oracle world of each
iteration, as the concatenated event trace of the iterations. -/
def mainLoop (w : Nat → NodeWorld) (i : Nat) : List Node → List Ev
  | [] => []
  | n :: ns => processNode (w i) n ++ mainLoop w (i + 1) ns

/-- The sequence of records durably appended to the log during a trace. -/
def sinkLogOf (t : List Ev) : List Stats :=
  t.filterMap (fun e =>
    match e with
    | Ev.sinkWrite st => some st
    | _ => none)

/-- The accumulated `all_stats` list at the end of a trace. -/
def allStatsOf (t : List Ev) : List Stats :=
  t.filterMap (fun e =>
    match e with
    | Ev.appended st => some st
    | _ => none)

/-- Characterization of one dispatch used to state the ordering claim: the
record a node contributes to `all_stats` (`none` when its strategy raised
or `save_log` raised). -/
def nodeOutcome (w : NodeWorld) (node : Node) : Option Stats :=
  match (runStrategy w node).2 with
  | Except.ok st =>
    match w.sinkExn with
    | none => some st
    | some _ => none
  | Except.error _ => none

/-- The per-node outcomes of a run, in input order. -/
def dispatchOutcomes (w : Nat → NodeWorld) (i : Nat) : List Node → List (Option Stats)
  | [] => []
  | n :: ns => nodeOutcome (w i) n :: dispatchOutcomes w (i + 1) ns

/-- A concrete oracle world in which every external step succeeds. -/
def okWorld : NodeWorld where
  gethostname := "pi0"
  now := ⟨2024, 1, 2, 3, 4, 5, 600000⟩
  runCmd := fun _ => Except.ok " out "
  sshConnect := fun _ _ _ => Except.ok ()
  sshExec := fun _ => Except.ok 0
  netConnect := fun _ _ _ _ => Except.ok ()
  netSendConfig := fun _ => Except.ok "cfg"
  netSave := Except.ok ()
  netDisconnect := Except.ok ()
  tEnter := 100
  tExit := 350
  sinkExn := none

/-- A concrete oracle world in which both remote connects raise. -/
def failWorld : NodeWorld :=
  { okWorld with
    sshConnect := fun _ _ _ => Except.error "boom",
    netConnect := fun _ _ _ _ => Except.error "netboom" }

/-- A concrete oracle world whose clock reads a whole second. -/
def zeroMicroWorld : NodeWorld :=
  { okWorld with now := ⟨2024, 1, 1, 0, 0, 0, 0⟩ }

/-- A concrete `ssh` node. -/
def sshNode : Node :=
  { HOST_NAME := some "pi1", USER_NAME := some "u", PASSWORD := some "p",
    DEVICE_TYPE := some "ssh", COMMANDS := some ["ls"] }

/-- A concrete `local` node. -/
def localNode : Node := { DEVICE_TYPE := some "local" }

/-- A concrete node carrying none of the six keys. -/
def bareNode : Node := {}

/-- The trace of any `TaskTimer` scope is the running marker followed by
exactly one colored exit marker. -/
theorem withTaskTimer_trace (l : String) (a b : Nat)
    (body : Except (String × Stats) Stats) :
    ∃ s c m, (withTaskTimer l a b body).1 = [Ev.print s, Ev.cprint c m] := by
  rcases body with st | er
  · exact ⟨_, _, _, rfl⟩
  · exact ⟨_, _, _, rfl⟩

/-- A two-event console trace contributes nothing to the durable log. -/
theorem sinkLogOf_console (s c m : String) :
    sinkLogOf [Ev.print s, Ev.cprint c m] = [] := rfl

/-- A two-event console trace contributes nothing to `all_stats`. -/
theorem allStatsOf_console (s c m : String) :
    allStatsOf [Ev.print s, Ev.cprint c m] = [] := rfl

/-- Every strategy trace consists of console events only. -/
theorem strategy_trace_console_only (w : NodeWorld) (node : Node) :
    sinkLogOf (runStrategy w node).1 = [] ∧
    allStatsOf (runStrategy w node).1 = [] := by
  have h : ∃ s c m, (runStrategy w node).1 = [Ev.print s, Ev.cprint c m] := by
    unfold runStrategy RUN_LOCAL RUN_SSH_COMMANDS RUN_NETMIKO_CONFIG
    split
    · exact withTaskTimer_trace _ _ _ _
    split
    · exact withTaskTimer_trace _ _ _ _
    · exact withTaskTimer_trace _ _ _ _
  obtain ⟨s, c, m, hm⟩ := h
  rw [hm]
  exact ⟨sinkLogOf_console s c m, allStatsOf_console s c m⟩

/-- Reading `status` back from a completed remote-strategy record. -/
theorem statsGet_record_status (h ts v : String) :
    statsGet (statsInsert [("host", h), ("timestamp", ts)] "status" v) "status" =
      some v := rfl

/-- Reading `timestamp` back from a completed remote-strategy record. -/
theorem statsGet_record_timestamp (h ts v : String) :
    statsGet (statsInsert [("host", h), ("timestamp", ts)] "status" v) "timestamp" =
      some ts := rfl

/-- Claim C6: the `TaskTimer` wrapper never swallows errors: around any unit
of work it emits the running marker and then exactly one exit marker (green
checkmark with elapsed time on normal completion, red cross with elapsed
time on failure), and the wrapped outcome — in particular a raised failure —
is passed through to the caller unchanged after the marker is emitted. -/
theorem task_timer_pairs_and_propagates (label : String) (t0 t1 : Nat)
    (body : Except (String × Stats) Stats) :
    (withTaskTimer label t0 t1 body).2 = body ∧
    (∀ st, body = Except.ok st →
      (withTaskTimer label t0 t1 body).1 =
        [Ev.print ("[" ++ label ++ "] Running..."),
         Ev.cprint "green" (" ✅ " ++ fmt2f (t1 - t0) ++ "s")]) ∧
    (∀ er, body = Except.error er →
      (withTaskTimer label t0 t1 body).1 =
        [Ev.print ("[" ++ label ++ "] Running..."),
         Ev.cprint "red" (" ❌ " ++ fmt2f (t1 - t0) ++ "s")]) := by
  refine ⟨rfl, ?_, ?_⟩ <;> rintro x rfl <;> rfl

/-- Witness for C6 at a concrete failing unit of work. -/
theorem task_timer_pairs_and_propagates_witness :
    (withTaskTimer "pi1" 100 350
        (Except.error ("boom", [("status", "fail: boom")]))).1 =
      [Ev.print "[pi1] Running...", Ev.cprint "red" " ❌ 2.50s"] :=
  (task_timer_pairs_and_propagates "pi1" 100 350 _).2.2 _ rfl

/-- Claim C3: strategy selection looks only at `device_kind`: `local` picks
the Local strategy, `ssh` picks the Raw-Remote-Shell strategy, and any other
value — any unrecognized string, or a missing `DEVICE_TYPE` key — falls to
the Managed-Network-Device strategy. -/
theorem dispatch_classifies_by_device_kind (w : NodeWorld) (node : Node) :
    (node.DEVICE_TYPE = some "local" → runStrategy w node = RUN_LOCAL w) ∧
    (node.DEVICE_TYPE = some "ssh" →
      runStrategy w node = RUN_SSH_COMMANDS w node) ∧
    (node.DEVICE_TYPE ≠ some "local" → node.DEVICE_TYPE ≠ some "ssh" →
      runStrategy w node = RUN_NETMIKO_CONFIG w node) := by
  refine ⟨fun h => ?_, fun h => ?_, fun h1 h2 => ?_⟩
  · simp [runStrategy, h]
  · simp [runStrategy, h]
  · simp [runStrategy, h1, h2]

/-- Witness for C3: a node with no `DEVICE_TYPE` key is routed to the
managed-device strategy. -/
theorem dispatch_classifies_by_device_kind_witness :
    runStrategy okWorld bareNode = RUN_NETMIKO_CONFIG okWorld bareNode :=
  (dispatch_classifies_by_device_kind okWorld bareNode).2.2
    (by simp [bareNode]) (by simp [bareNode])

/-- Claim C1: the Local strategy is total and isolates per-metric failures:
for every node dispatched with `device_kind = local` it returns normally
(never raises) with `status = success`, however many of the six catalog
commands failed, and each catalog metric key holds either the trimmed
standard output of the command or an `Error: <reason>` marker string. -/
theorem run_local_partial_failure_isolation (w : NodeWorld) (node : Node)
    (h : node.DEVICE_TYPE = some "local") :
    (runStrategy w node).2 = Except.ok (localStats w) ∧
    statsGet (localStats w) "status" = some "success" ∧
    (∀ kc ∈ COMMANDS,
      statsGet (localStats w) kc.1 = some (localMetric w kc.2)) := by
  refine ⟨?_, ?_, ?_⟩
  · simp [runStrategy, h, RUN_LOCAL, withTaskTimer]
  · simp [localStats, COMMANDS, statsInsert, statsGet]
  · intro kc hkc
    fin_cases hkc <;>
      simp [localStats, COMMANDS, statsInsert, statsGet]

/-- Witness for C1 at a concrete `local` node and a concrete world. -/
theorem run_local_partial_failure_isolation_witness :
    (runStrategy okWorld localNode).2 = Except.ok (localStats okWorld) ∧
    statsGet (localStats okWorld) "status" = some "success" ∧
    (∀ kc ∈ COMMANDS,
      statsGet (localStats okWorld) kc.1 = some (localMetric okWorld kc.2)) :=
  run_local_partial_failure_isolation okWorld localNode rfl

/-- Claim C5: `LOAD_NODES` is total: a missing file and a raising
open/parse both yield the empty node list, and a run that yields anything
other than the empty list can only have come from a successfully parsed
file. -/
theorem load_nodes_total_on_failure (file : NodesFile) :
    ((file = none ∨ ∃ e, file = some (Except.error e)) →
      LOAD_NODES file = Yaml.list []) ∧
    (LOAD_NODES file ≠ Yaml.list [] → ∃ d, file = some (Except.ok d)) := by
  constructor
  · rintro (rfl | ⟨e, rfl⟩) <;> rfl
  · intro h
    match file with
    | none => exact absurd rfl h
    | some (Except.error e) => exact absurd rfl h
    | some (Except.ok d) => exact ⟨d, rfl⟩

/-- Witness for C5 at a concrete malformed file. -/
theorem load_nodes_total_on_failure_witness :
    LOAD_NODES (some (Except.error "yaml parse error")) = Yaml.list [] :=
  (load_nodes_total_on_failure (some (Except.error "yaml parse error"))).1
    (Or.inr ⟨"yaml parse error", rfl⟩)

/-- Claim C10: with an existing file, a document parsing to `null` yields
the empty list without raising (the `.get` attribute error is caught), a
mapping without a `nodes` key yields the empty list, and when a top-level
`nodes` key is present its value is returned as-is, whatever its shape. -/
theorem load_nodes_nodes_key_behavior (kvs : List (String × Yaml)) :
    LOAD_NODES (some (Except.ok Yaml.null)) = Yaml.list [] ∧
    (yamlLookup kvs "nodes" = none →
      LOAD_NODES (some (Except.ok (Yaml.map kvs))) = Yaml.list []) ∧
    (∀ v, yamlLookup kvs "nodes" = some v →
      LOAD_NODES (some (Except.ok (Yaml.map kvs))) = v) := by
  refine ⟨rfl, fun h => ?_, fun v h => ?_⟩ <;>
    simp [LOAD_NODES, dataGetNodes, h]

/-- Witness for C10: a present `nodes` key whose value is a one-element
list is returned as-is. -/
theorem load_nodes_nodes_key_behavior_witness :
    LOAD_NODES (some (Except.ok
        (Yaml.map [("nodes", Yaml.list [Yaml.str "x"])]))) =
      Yaml.list [Yaml.str "x"] :=
  (load_nodes_nodes_key_behavior [("nodes", Yaml.list [Yaml.str "x"])]).2.2
    (Yaml.list [Yaml.str "x"]) rfl

/-- Projection `sinkLogOf` distributes over trace concatenation. -/
theorem sinkLogOf_append (a b : List Ev) :
    sinkLogOf (a ++ b) = sinkLogOf a ++ sinkLogOf b :=
  List.filterMap_append a b _

/-- Projection `allStatsOf` distributes over trace concatenation. -/
theorem allStatsOf_append (a b : List Ev) :
    allStatsOf (a ++ b) = allStatsOf a ++ allStatsOf b :=
  List.filterMap_append a b _

/-- An error notice contributes nothing to the durable log. -/
theorem sinkLogOf_errNotice (node : Node) (e : String) :
    sinkLogOf [errNotice node e] = [] := rfl

/-- An error notice contributes nothing to `all_stats`. -/
theorem allStatsOf_errNotice (node : Node) (e : String) :
    allStatsOf [errNotice node e] = [] := rfl

/-- Claim C4: both remote strategies follow the record-then-reraise
contract: whenever the connect or any command step raises with message `e`,
the record built inside the strategy holds `status = fail: <e>` and the very
same exception `e` is propagated to the caller; on an exception-free run the
strategy returns normally with `status = success`. -/
theorem remote_strategies_record_then_reraise (w : NodeWorld) (node : Node) :
    (∀ e r, (RUN_SSH_COMMANDS w node).2 = Except.error (e, r) →
      statsGet r "status" = some ("fail: " ++ e)) ∧
    (∀ st, (RUN_SSH_COMMANDS w node).2 = Except.ok st →
      statsGet st "status" = some "success") ∧
    (∀ e r, (RUN_NETMIKO_CONFIG w node).2 = Except.error (e, r) →
      statsGet r "status" = some ("fail: " ++ e)) ∧
    (∀ st, (RUN_NETMIKO_CONFIG w node).2 = Except.ok st →
      statsGet st "status" = some "success") := by
  refine ⟨?_, ?_, ?_, ?_⟩
  · intro e r hr
    rcases hT : runSSHTry w node with u | e2 <;>
      simp [RUN_SSH_COMMANDS, withTaskTimer, hT] at hr
    obtain ⟨he, hrec⟩ := hr
    subst he
    rw [← hrec]
    exact statsGet_record_status _ _ _
  · intro st hst
    rcases hT : runSSHTry w node with u | e2 <;>
      simp [RUN_SSH_COMMANDS, withTaskTimer, hT] at hst
    rw [← hst]
    exact statsGet_record_status _ _ _
  · intro e r hr
    rcases hT : runNetTry w node with u | e2 <;>
      simp [RUN_NETMIKO_CONFIG, withTaskTimer, hT] at hr
    obtain ⟨he, hrec⟩ := hr
    subst he
    rw [← hrec]
    exact statsGet_record_status _ _ _
  · intro st hst
    rcases hT : runNetTry w node with u | e2 <;>
      simp [RUN_NETMIKO_CONFIG, withTaskTimer, hT] at hst
    rw [← hst]
    exact statsGet_record_status _ _ _

/-- Witness for C4 at a concrete world whose ssh connect raises `boom`. -/
theorem remote_strategies_record_then_reraise_witness :
    statsGet [("host", "pi1"), ("timestamp", "2024-01-02T03:04:05.600000Z"),
        ("status", "fail: boom")] "status" = some "fail: boom" :=
  (remote_strategies_record_then_reraise failWorld sshNode).1 "boom"
    [("host", "pi1"), ("timestamp", "2024-01-02T03:04:05.600000Z"),
     ("status", "fail: boom")] (by rfl)

/-- Claim C2: a raised strategy failure of one node is caught at the per-node
boundary of the dispatch loop: the loop emits the red error notice naming
the `host_name` of the node and then processes the remaining nodes exactly as it
would have otherwise — no failure of a single node aborts the run. -/
theorem dispatch_per_node_failure_isolation (w : Nat → NodeWorld) (i : Nat)
    (node : Node) (ns : List Node) (e : String) (r : Stats)
    (h : (runStrategy (w i) node).2 = Except.error (e, r)) :
    mainLoop w i (node :: ns) =
      (runStrategy (w i) node).1 ++ errNotice node e :: mainLoop w (i + 1) ns := by
  simp [mainLoop, processNode, h]

/-- Witness for C2: a failing ssh node followed by a local node. -/
theorem dispatch_per_node_failure_isolation_witness :
    mainLoop (fun _ => failWorld) 0 [sshNode, localNode] =
      (runStrategy failWorld sshNode).1 ++
        errNotice sshNode "boom" :: mainLoop (fun _ => failWorld) 1 [localNode] :=
  dispatch_per_node_failure_isolation (fun _ => failWorld) 0 sshNode
    [localNode] "boom"
    [("host", "pi1"), ("timestamp", "2024-01-02T03:04:05.600000Z"),
     ("status", "fail: boom")]
    (by rfl)

/-- Claim C9: a node whose strategy raises contributes nothing to the
durable log and nothing to the accumulated `all_stats` list: the per-node
boundary sees the raise before `save_log` is reached, so the fail-status
record built inside the strategy never reaches the sink. -/
theorem failing_strategy_writes_nothing (w : NodeWorld) (node : Node)
    (e : String) (r : Stats)
    (h : (runStrategy w node).2 = Except.error (e, r)) :
    sinkLogOf (processNode w node) = [] ∧
    allStatsOf (processNode w node) = [] := by
  obtain ⟨hs, ha⟩ := strategy_trace_console_only w node
  have hp : processNode w node = (runStrategy w node).1 ++ [errNotice node e] := by
    simp [processNode, h]
  rw [hp]
  exact ⟨by simp [sinkLogOf_append, hs, sinkLogOf_errNotice],
         by simp [allStatsOf_append, ha, allStatsOf_errNotice]⟩

/-- Witness for C9 at the concrete failing ssh node. -/
theorem failing_strategy_writes_nothing_witness :
    sinkLogOf (processNode failWorld sshNode) = [] ∧
    allStatsOf (processNode failWorld sshNode) = [] :=
  failing_strategy_writes_nothing failWorld sshNode "boom"
    [("host", "pi1"), ("timestamp", "2024-01-02T03:04:05.600000Z"),
     ("status", "fail: boom")]
    (by rfl)

/-- A successful sink write and list append of the same record, as trace. -/
theorem allStatsOf_sink_app (st : Stats) :
    allStatsOf [Ev.sinkWrite st, Ev.appended st] = [st] := rfl

/-- The `all_stats` contribution of one loop iteration is exactly that
outcome of that node. -/
theorem allStatsOf_processNode (v : NodeWorld) (n : Node) :
    allStatsOf (processNode v n) = (nodeOutcome v n).toList := by
  obtain ⟨hs, ha⟩ := strategy_trace_console_only v n
  rcases hr : (runStrategy v n).2 with er | st
  · rcases er with ⟨e, r⟩
    simp [processNode, nodeOutcome, hr, allStatsOf_append, ha,
      allStatsOf_errNotice]
  · rcases hsink : v.sinkExn with _ | e2
    · simp [processNode, nodeOutcome, hr, hsink, allStatsOf_append, ha,
        allStatsOf_sink_app]
    · simp [processNode, nodeOutcome, hr, hsink, allStatsOf_append, ha,
        allStatsOf_errNotice]

/-- Claim C7: the dispatch loop accumulates results in input order — the
final `all_stats` list is exactly the per-node successful outcomes, node by
node in input order — and each such result is forwarded to the Result Sink
(`save_log`) immediately before it is appended to the accumulated list. -/
theorem dispatch_preserves_order_and_sinks_first (w : Nat → NodeWorld)
    (i : Nat) (nodes : List Node) :
    allStatsOf (mainLoop w i nodes) =
      (dispatchOutcomes w i nodes).reduceOption ∧
    (∀ v n st, (runStrategy v n).2 = Except.ok st → v.sinkExn = none →
      processNode v n =
        (runStrategy v n).1 ++ [Ev.sinkWrite st, Ev.appended st]) := by
  constructor
  · induction nodes generalizing i with
    | nil => rfl
    | cons n ns ih =>
      rcases ho : nodeOutcome (w i) n with _ | st <;>
        simp [mainLoop, dispatchOutcomes, allStatsOf_append,
          allStatsOf_processNode, ih, ho, List.reduceOption_cons_of_some,
          List.reduceOption_cons_of_none]
  · intro v n st h1 h2
    simp [processNode, h1, h2]

/-- Witness for C7: at a succeeding local node, the sink write precedes the
list append. -/
theorem dispatch_preserves_order_and_sinks_first_witness :
    processNode okWorld localNode =
      (runStrategy okWorld localNode).1 ++
        [Ev.sinkWrite (localStats okWorld), Ev.appended (localStats okWorld)] :=
  (dispatch_preserves_order_and_sinks_first (fun _ => okWorld) 0 []).2
    okWorld localNode (localStats okWorld) (by rfl) (by rfl)

/-- A timestamp string can carry a fractional-second part — required for
millisecond or better ISO-8601 precision — only if it contains a decimal
point. -/
def hasFractionalSecond (s : String) : Bool :=
  s.data.contains '.'

/-- String concatenation is associative (componentwise on the character
data). -/
theorem string_append_assoc (a b c : String) :
    a ++ b ++ c = a ++ (b ++ c) := by
  obtain ⟨da⟩ := a
  obtain ⟨db⟩ := b
  obtain ⟨dc⟩ := c
  show String.mk (da ++ db ++ dc) = String.mk (da ++ (db ++ dc))
  rw [List.append_assoc]

/-- Claim C8 counterexample: when `datetime.utcnow()` returns a whole
second (microsecond component 0), the CPython `isoformat` omits the
fractional part entirely, so the recorded timestamp
`2024-01-01T00:00:00Z` carries no millisecond digits at all. -/
theorem timestamp_millisecond_precision_counterexample :
    (RUN_LOCAL zeroMicroWorld).2 = Except.ok (localStats zeroMicroWorld) ∧
    statsGet (localStats zeroMicroWorld) "timestamp" =
      some "2024-01-01T00:00:00Z" ∧
    hasFractionalSecond "2024-01-01T00:00:00Z" = false :=
  ⟨rfl, by rfl, by rfl⟩

/-- Claim C8 as amended: every result record of the three strategies (the
returned record, and also the fail-status record of a raising remote
strategy) carries `timestamp = isoformat(utcnow()) + "Z"` — a UTC ISO-8601
instant; it has microsecond (hence millisecond-or-better) precision
whenever the microsecond component of the clock is nonzero, and only
second precision when that component is exactly zero. -/
theorem timestamp_format_amended (w : NodeWorld) (node : Node) :
    statsGet (localStats w) "timestamp" = some (w.now.isoformat ++ "Z") ∧
    (∀ e r, (RUN_SSH_COMMANDS w node).2 = Except.error (e, r) →
      statsGet r "timestamp" = some (w.now.isoformat ++ "Z")) ∧
    (∀ st, (RUN_SSH_COMMANDS w node).2 = Except.ok st →
      statsGet st "timestamp" = some (w.now.isoformat ++ "Z")) ∧
    (∀ e r, (RUN_NETMIKO_CONFIG w node).2 = Except.error (e, r) →
      statsGet r "timestamp" = some (w.now.isoformat ++ "Z")) ∧
    (∀ st, (RUN_NETMIKO_CONFIG w node).2 = Except.ok st →
      statsGet st "timestamp" = some (w.now.isoformat ++ "Z")) ∧
    (w.now.microsecond ≠ 0 →
      ∃ p, w.now.isoformat ++ "Z" =
        p ++ "." ++ pad6 w.now.microsecond ++ "Z") := by
  refine ⟨?_, ?_, ?_, ?_, ?_, ?_⟩
  · simp [localStats, COMMANDS, statsInsert, statsGet]
  · intro e r hr
    rcases hT : runSSHTry w node with u | e2 <;>
      simp [RUN_SSH_COMMANDS, withTaskTimer, hT] at hr
    obtain ⟨he, hrec⟩ := hr
    rw [← hrec]
    exact statsGet_record_timestamp _ _ _
  · intro st hst
    rcases hT : runSSHTry w node with u | e2 <;>
      simp [RUN_SSH_COMMANDS, withTaskTimer, hT] at hst
    rw [← hst]
    exact statsGet_record_timestamp _ _ _
  · intro e r hr
    rcases hT : runNetTry w node with u | e2 <;>
      simp [RUN_NETMIKO_CONFIG, withTaskTimer, hT] at hr
    obtain ⟨he, hrec⟩ := hr
    rw [← hrec]
    exact statsGet_record_timestamp _ _ _
  · intro st hst
    rcases hT : runNetTry w node with u | e2 <;>
      simp [RUN_NETMIKO_CONFIG, withTaskTimer, hT] at hst
    rw [← hst]
    exact statsGet_record_timestamp _ _ _
  · intro hm
    refine ⟨pad4 w.now.year ++ "-" ++ pad2 w.now.month ++ "-" ++
      pad2 w.now.day ++ "T" ++ pad2 w.now.hour ++ ":" ++
      pad2 w.now.minute ++ ":" ++ pad2 w.now.second, ?_⟩
    simp [DateTime.isoformat, hm, string_append_assoc]

/-- Witness for C8 as amended, at a clock reading 600000 microseconds. -/
theorem timestamp_format_amended_witness :
    statsGet (localStats okWorld) "timestamp" =
      some (okWorld.now.isoformat ++ "Z") ∧
    (∃ p, okWorld.now.isoformat ++ "Z" =
      p ++ "." ++ pad6 okWorld.now.microsecond ++ "Z") :=
  ⟨(timestamp_format_amended okWorld bareNode).1,
   (timestamp_format_amended okWorld bareNode).2.2.2.2.2 (by decide)⟩
